import Mathlib

/-!
Verification of the github3api client (src/src/main/python/github3api/githubapi.py)
against its natural-language specification.

The Python source is shallowly embedded: exceptions become an inductive type,
classifier functions become Boolean functions, the retrying decorator becomes an
explicit bounded retry loop that counts attempts, and the pagination loops become
fuel-indexed recursive functions over an abstract response store.
-/

namespace Github3api

/-- Exception values that can flow through the client, mirroring the exception
classes used in githubapi.py: requests.HTTPError (carrying a response with a
status code and a reason), requests.ChunkedEncodingError, the two module-level
GraphQL exception classes, and the builtin Python exceptions the code can raise. -/
inductive Exc where
  | httpError (status : Nat) (reason : String)
  | chunkedEncodingError (msg : String)
  | graphqlRateLimitError (msg : String)
  | graphqlError (msg : String)
  | typeError (msg : String)
  | keyError (key : String)
  | valueError (msg : String)
  | indexError (msg : String)
  | attributeError (msg : String)
  | otherError (msg : String)
deriving DecidableEq, Repr

/-- GitHubAPI.retry_ratelimit_error (githubapi.py lines 222-235): returns True
exactly when the exception is an HTTPError whose response status code is 403;
the response reason is never inspected. -/
def retry_ratelimit_error : Exc → Bool
  | .httpError status _ => status == 403
  | _ => false

/-- GitHubAPI.check_graphqlratelimiterror (githubapi.py lines 293-301): returns
True exactly when the exception is an instance of GraphqlRateLimitError or
TypeError, per the isinstance tuple in the source. -/
def check_graphqlratelimiterror : Exc → Bool
  | .graphqlRateLimitError _ => true
  | .typeError _ => true
  | _ => false

/-- One retry configuration: a classifier plus the wait/attempt-cap metadata
attached to it (the retrying library's keyword arguments). -/
structure RetrySpec where
  retry_on_exception : Exc → Bool
  wait_fixed : Nat
  stop_max_attempt_number : Nat

/-- The retry configurations contributed by the repository for plain REST
requests: exactly one, built from retry_ratelimit_error and the metadata in its
docstring (wait_fixed 60000, stop_max_attempt_number 60), as pinned by the
repository test test__get_retries_Should_ReturnExpected_When_Called (the
ChunkedEncodingError entry is commented out there and has no classifier in the
source). -/
def retries : List RetrySpec :=
  [⟨retry_ratelimit_error, 60000, 60⟩]

/-- The retry decorator applied to GitHubAPI.graphql (githubapi.py line 303):
retry_on_exception is check_graphqlratelimiterror, wait_fixed 60000,
stop_max_attempt_number 60. -/
def graphql_retry : RetrySpec :=
  ⟨check_graphqlratelimiterror, 60000, 60⟩

/-- Bounded retry loop of the retrying library: run attempt i; on success stop;
on a failure accepted by the classifier and with remaining attempts, run the
next attempt; otherwise re-raise. Returns the outcome together with the number
of attempts performed. -/
def retryGo (cls : Exc → Bool) (run : Nat → Except Exc α) (i : Nat) :
    Nat → Except Exc α × Nat
  | 0 => (run i, i + 1)
  | rem + 1 =>
    match run i with
    | .ok a => (.ok a, i + 1)
    | .error e => if cls e then retryGo cls run (i + 1) rem else (.error e, i + 1)

/-- A call guarded by one retry configuration: at most stop_max_attempt_number
attempts in total. -/
def retryCall (spec : RetrySpec) (run : Nat → Except Exc α) : Except Exc α × Nat :=
  retryGo spec.retry_on_exception run 0 (spec.stop_max_attempt_number - 1)

/-- One entry of the errors array of a GraphQL response body. Fields are
optional because the Python code reads the type and, in the rate-limited
branch, the message with dict.get (defaulting to the empty string), while the
generic branch indexes the message directly (a missing key is a KeyError). -/
structure GqlErrEntry where
  errtype : Option String
  message : Option String
deriving DecidableEq, Repr

/-- error.get with the empty-string default used on the type field. -/
def GqlErrEntry.typeGet (e : GqlErrEntry) : String := e.errtype.getD ""

/-- A GraphQL response body as far as error handling is concerned: the errors
key is either absent or holds a list of entries. -/
structure GqlResponse where
  errors : Option (List GqlErrEntry)
deriving DecidableEq, Repr

/-- GitHubAPI.raise_if_error (githubapi.py lines 252-261): if the response has
an errors key, scan the entries in order and raise GraphqlRateLimitError at the
first entry whose type is RATE_LIMITED (message via dict.get, default empty);
if none matches, raise GraphqlError with the first entry's message (direct
indexing: an empty errors list is an IndexError, a missing message a KeyError).
A response without an errors key raises nothing. -/
def raise_if_error (r : GqlResponse) : Except Exc Unit :=
  match r.errors with
  | none => .ok ()
  | some errs =>
    match errs.find? (fun e => e.typeGet == "RATE_LIMITED") with
    | some e => .error (.graphqlRateLimitError (e.message.getD ""))
    | none =>
      match errs with
      | [] => .error (.indexError "list index out of range")
      | e0 :: _ =>
        match e0.message with
        | none => .error (.keyError "message")
        | some m => .error (.graphqlError m)

/-! ### String helpers mirroring the Python string operations -/

/-- Python substring membership (the expression sub in s). -/
def containsSub (needle : List Char) : List Char → Bool
  | [] => needle.isEmpty
  | c :: rest => needle.isPrefixOf (c :: rest) || containsSub needle rest

/-- Python str.replace scanning: replace every non-overlapping occurrence of
pat by repl, scanning left to right. The Nat argument counts characters of a
matched occurrence still to be consumed. -/
def replaceAux (pat repl : List Char) : Nat → List Char → List Char
  | _, [] => []
  | d + 1, _ :: rest => replaceAux pat repl d rest
  | 0, c :: rest =>
    if pat ≠ [] ∧ pat.isPrefixOf (c :: rest) then
      repl ++ replaceAux pat repl (pat.length - 1) rest
    else
      c :: replaceAux pat repl 0 rest

/-- Python str.replace on strings (all occurrences). -/
def pyReplace (s pat repl : String) : String :=
  ⟨replaceAux pat.data repl.data 0 s.data⟩

/-- The digits captured by the greedy regex .*key(\d+).* of githubapi.py: the
maximal digit run following the last occurrence of key that is followed by at
least one digit, None when no occurrence qualifies. -/
def extractLastParam (key : List Char) : List Char → Option (List Char)
  | [] => none
  | c :: rest =>
    match extractLastParam key rest with
    | some v => some v
    | none =>
      if key.isPrefixOf (c :: rest) then
        let ds := ((c :: rest).drop key.length).takeWhile Char.isDigit
        if ds.isEmpty then none else some ds
      else none

/-- int() on a string of decimal digits. -/
def digitsToNat (ds : List Char) : Nat :=
  ds.foldl (fun n c => n * 10 + (c.toNat - 48)) 0

/-- Module constant DEFAULT_PAGE_SIZE (githubapi.py line 32). -/
def DEFAULT_PAGE_SIZE : Nat := 30

/-- Module constant DEFAULT_GRAPHQL_PAGE_SIZE (githubapi.py line 33). -/
def DEFAULT_GRAPHQL_PAGE_SIZE : Nat := 100

/-- GitHubAPI.get_page_from_url (githubapi.py lines 158-165): regex match of
page=(digits) with greedy backtracking, None when the url has no occurrence of
page= followed by a digit. -/
def get_page_from_url (url : String) : Option Nat :=
  (extractLastParam "page=".data url.data).map digitsToNat

/-- GitHubAPI.get_per_page_from_url (githubapi.py lines 167-176): regex match
of per_page=(digits), defaulting to DEFAULT_PAGE_SIZE when absent. -/
def get_per_page_from_url (url : String) : Nat :=
  match extractLastParam "per_page=".data url.data with
  | some ds => digitsToNat ds
  | none => DEFAULT_PAGE_SIZE

/-- GitHubAPI.get_endpoint_from_url (githubapi.py lines 153-156): Python
str.replace of the full host prefix by the empty string (all occurrences; a
url not containing the prefix is returned unchanged, no error is raised). -/
def get_endpoint_from_url (hostname url : String) : String :=
  pyReplace url ("https://" ++ hostname) ""

/-! ### REST pagination model -/

/-- A decoded JSON object, as an association list of string fields. -/
abbrev Item := List (String × String)

/-- The decoded body of one REST response: either a JSON list or a single
JSON object. -/
inductive Body where
  | list (items : List Item)
  | obj (item : Item)
deriving DecidableEq, Repr

/-- The batch contributed by one body in _get_all: a list payload is flattened,
a single object is wrapped as one item. -/
def Body.batch : Body → List Item
  | .list items => items
  | .obj item => [item]

/-- Python len() of a decoded body: length of a list, number of keys of a
dict. -/
def Body.pyLen : Body → Nat
  | .list items => items.length
  | .obj item => item.length

/-- A raw REST response: decoded body plus the parsed Link header, a mapping
from relation name to target url. -/
structure RestResponse where
  body : Body
  links : List (String × String)
deriving DecidableEq, Repr

/-- response.links.get(rel, dict()).get(url-key): the url of the named
relation, None when the relation is absent. -/
def lookupLink (links : List (String × String)) (rel : String) : Option String :=
  (links.find? (fun p => p.1 == rel)).map Prod.snd

/-- GitHubAPI._get_next_endpoint (githubapi.py lines 73-81): None for a falsy
url (absent or empty), otherwise the url normalized through
get_endpoint_from_url. -/
def _get_next_endpoint (hostname : String) : Option String → Option String
  | none => none
  | some url => if url = "" then none else some (get_endpoint_from_url hostname url)

/-- The next endpoint a response leads to, as computed inside the pagination
loops. -/
def nextOf (hostname : String) (r : RestResponse) : Option String :=
  _get_next_endpoint hostname (lookupLink r.links "next")

/-- The while-loop of GitHubAPI._get_all (githubapi.py lines 83-104), with
fuel: each iteration issues one GET with the same original options; a falsy
response leaves url at None (ending the loop with the accumulator); otherwise
the decoded batch is appended and the next link read; the loop ends when the
next endpoint is falsy (None or empty). None means the fuel ran out. -/
def getAllLoop (hostname : String) (store : σ → String → Option RestResponse) (opts : σ) :
    Nat → String → List Item → Option (List Item)
  | 0, _, _ => none
  | fuel + 1, endpoint, items =>
    let step : List Item × Option String :=
      match store opts endpoint with
      | none => (items, none)
      | some r => (items ++ r.body.batch, lookupLink r.links "next")
    match _get_next_endpoint hostname step.2 with
    | none => some step.1
    | some e2 =>
      if e2 = "" then some step.1
      else getAllLoop hostname store opts fuel e2 step.1

/-- GitHubAPI._get_all: run the loop from an empty accumulator. -/
def _get_all (hostname : String) (store : σ → String → Option RestResponse) (opts : σ)
    (fuel : Nat) (endpoint : String) : Option (List Item) :=
  getAllLoop hostname store opts fuel endpoint []

/-- The generator GitHubAPI._get_page (githubapi.py lines 106-115), with fuel:
the trace of yielded bodies plus an optional terminal exception (an absent
response makes the yield expression fail; running out of fuel marks a still
unfinished traversal). -/
def getPageLoop (hostname : String) (store : σ → String → Option RestResponse) (opts : σ) :
    Nat → String → List Body × Option Exc
  | 0, _ => ([], some (.otherError "fuel exhausted"))
  | fuel + 1, endpoint =>
    match store opts endpoint with
    | none => ([], some (.attributeError "NoneType object has no attribute json"))
    | some r =>
      match _get_next_endpoint hostname (lookupLink r.links "next") with
      | none => ([r.body], none)
      | some e2 =>
        if e2 = "" then ([r.body], none)
        else
          let rest := getPageLoop hostname store opts fuel e2
          (r.body :: rest.1, rest.2)

/-- GitHubAPI._get_page as the trace of its yields. -/
def _get_page (hostname : String) (store : σ → String → Option RestResponse) (opts : σ)
    (fuel : Nat) (endpoint : String) : List Body × Option Exc :=
  getPageLoop hostname store opts fuel endpoint

/-- A chain of N pages linked by next relations: the store answers each
endpoint with the corresponding response, every response but the last leads to
the next endpoint of the chain, and the last leads nowhere (absent or empty
next). -/
def ChainsTo (hostname : String) (store : σ → String → Option RestResponse) (opts : σ) :
    String → List RestResponse → Prop
  | _, [] => False
  | e, [r] => store opts e = some r ∧
      (nextOf hostname r = none ∨ nextOf hostname r = some "")
  | e, r :: r2 :: rest => store opts e = some r ∧
      ∃ e2, nextOf hostname r = some e2 ∧ e2 ≠ "" ∧
        ChainsTo hostname store opts e2 (r2 :: rest)

/-! ### Total estimation -/

/-- The endpoint of the first request of total: the original endpoint with
per_page forced to 1, joined with ? or & depending on whether the endpoint
already has a query string (githubapi.py lines 136-139). -/
def totalFirstEndpoint (endpoint : String) : String :=
  if containsSub "?".data endpoint.data then endpoint ++ "&per_page=1"
  else endpoint ++ "?per_page=1"

/-- GitHubAPI.total (githubapi.py lines 130-151): reject an endpoint containing
per_page (substring test) before any request; request the endpoint with
per_page forced to 1; if the response has any links, read the last relation
(KeyError when absent), request its bare endpoint, and combine
per_page * (last_page - 1) + len(items); with no links, return the length of
the single response. Returns the outcome plus the list of requested
endpoints. -/
def total (hostname : String) (store : String → Option RestResponse) (endpoint : String) :
    Except Exc Int × List String :=
  if containsSub "per_page".data endpoint.data then
    (.error (.valueError "endpoint with per_page argument is not supported"), [])
  else
    match store (totalFirstEndpoint endpoint) with
    | none =>
      (.error (.attributeError "NoneType object has no attribute links"),
       [totalFirstEndpoint endpoint])
    | some r1 =>
      if r1.links.isEmpty then
        (.ok (r1.body.pyLen : Int), [totalFirstEndpoint endpoint])
      else
        match lookupLink r1.links "last" with
        | none => (.error (.keyError "last"), [totalFirstEndpoint endpoint])
        | some lastUrl =>
          match store (get_endpoint_from_url hostname lastUrl) with
          | none =>
            (.error (.typeError "object of type NoneType has no len"),
             [totalFirstEndpoint endpoint, get_endpoint_from_url hostname lastUrl])
          | some r2 =>
            match get_page_from_url lastUrl with
            | none =>
              (.error (.typeError "unsupported operand type for int and NoneType"),
               [totalFirstEndpoint endpoint, get_endpoint_from_url hostname lastUrl])
            | some lastPage =>
              (.ok ((get_per_page_from_url lastUrl : Int) * ((lastPage : Int) - 1) +
                 r2.body.pyLen),
               [totalFirstEndpoint endpoint, get_endpoint_from_url hostname lastUrl])

/-- Modelled from the spec's words (only for comparison with the code's
substring test): an endpoint contains a page-size query parameter when its
query string, the part after the first question mark, has a parameter whose
name, the part before its equals sign, is exactly per_page. -/
def hasPerPageQueryParam (endpoint : String) : Bool :=
  match (endpoint.data.dropWhile (fun c => c ≠ '?')) with
  | [] => false
  | _ :: query =>
    ((query.splitOn '&').any
      (fun p => p.takeWhile (fun c => !(c == '=')) == "per_page".data))

/-- A concrete two-page store: the first page is a list payload whose next link
points (through the host prefix) at the second page, a single-object payload
with no links. -/
def storeC4 : Unit → String → Option RestResponse := fun _ e =>
  if e = "/w" then
    some ⟨.list [[("id", "1")], [("id", "2")]],
          [("next", "https://api.github.com/w?page=2")]⟩
  else if e = "/w?page=2" then
    some ⟨.obj [("id", "3")], []⟩
  else none

/-- A store whose first-page response has relation links but no last relation:
total then raises a KeyError instead of counting the single response. -/
def storeC5cx : String → Option RestResponse := fun _ =>
  some ⟨.list [[("id", "1")]], [("next", "https://api.github.com/x?page=2")]⟩

/-- The store of the specification's worked example: a collection of 207 full
pages of 30 plus a last page of 3; the probe request with per_page forced to 1
answers with a last link at per_page 30, page 208; the last page holds 3
items. -/
def storeC5 : String → Option RestResponse := fun e =>
  if e = "/repos?per_page=1" then
    some ⟨.list [[("id", "1")]],
          [("next", "https://api.github.com/repos?per_page=1&page=2"),
           ("last", "https://api.github.com/repos?per_page=30&page=208")]⟩
  else if e = "/repos?per_page=30&page=208" then
    some ⟨.list [[("id", "a")], [("id", "b")], [("id", "c")]], []⟩
  else none

/-! ### GraphQL paged traversal -/

/-- A value of the GraphQL variables dictionary. -/
inductive VarVal where
  | s (v : String)
  | n (v : Nat)
deriving DecidableEq, Repr

/-- The caller-supplied variables dictionary, insertion-ordered. -/
abbrev Vars := List (String × VarVal)

/-- Python dict assignment: update the value in place when the key exists,
append at the end otherwise. -/
def setVar (k : String) (v : VarVal) : Vars → Vars
  | [] => [(k, v)]
  | (k0, v0) :: rest => if k0 == k then (k0, v) :: rest else (k0, v0) :: setVar k v rest

/-- Python dict lookup. -/
def getVar (k : String) (vars : Vars) : Option VarVal :=
  (vars.find? (fun p => p.1 == k)).map Prod.snd

/-- The part of one GraphQL page response the paged generator reads: the edges
list at the result path and the two pageInfo fields. -/
structure GPage where
  edges : List String
  hasNextPage : Bool
  endCursor : String
deriving DecidableEq, Repr

/-- One server response inside a paged traversal: either a well-formed page or
a response carrying a GraphQL errors array. -/
inductive GStep where
  | ok (page : GPage)
  | err (errs : List GqlErrEntry)
deriving DecidableEq, Repr

/-- The exception raise_if_error raises for a response with an errors array. -/
def excOfErrors (errs : List GqlErrEntry) : Exc :=
  match raise_if_error ⟨some errs⟩ with
  | .error e => e
  | .ok _ => .otherError "unreachable"

/-- The loop of GitHubAPI._get_graphql_page (githubapi.py lines 280-291) run
against a server trace: each iteration posts and receives the next step of the
trace; an errors response raises before anything is yielded that iteration; a
well-formed page is yielded, and when it reports hasNextPage the cursor
variable is overwritten with its endCursor and the loop continues, otherwise
the loop ends without touching the cursor again. Returns the yielded batches,
the final state of the variables dictionary, and the terminal exception if any
(an exhausted trace stands for a consumer that stops iterating). -/
def gPageLoop : List GStep → Vars → List (List String) × Vars × Option Exc
  | [], vars => ([], vars, none)
  | .err errs :: _, vars => ([], vars, some (excOfErrors errs))
  | .ok p :: rest, vars =>
    if p.hasNextPage then
      let r := gPageLoop rest (setVar "cursor" (.s p.endCursor) vars)
      (p.edges :: r.1, r.2.1, r.2.2)
    else
      ([p.edges], vars, none)

/-- GitHubAPI._get_graphql_page: overwrite page_size with the fixed GraphQL
page size and cursor with the empty string in the caller's dictionary, then
run the loop. -/
def _get_graphql_page (steps : List GStep) (vs : Vars) :
    List (List String) × Vars × Option Exc :=
  gPageLoop steps
    (setVar "cursor" (.s "") (setVar "page_size" (.n DEFAULT_GRAPHQL_PAGE_SIZE) vs))

/-- The cursor value left in the variables dictionary by a traversal that
started from cursor c: it is overwritten by the endCursor of each page that
reports hasNextPage and by nothing else. -/
def lastCursor : List GStep → String → String
  | [], c => c
  | .err _ :: _, c => c
  | .ok p :: rest, c => if p.hasNextPage then lastCursor rest p.endCursor else c

/-- What GitHubAPI.graphql (githubapi.py lines 303-314) returns: for page=True,
the generator object made of the call arguments; for page=False, the checked
single response. -/
inductive GraphqlResult where
  | pagedGen (steps : List GStep) (vs : Vars)
  | single (resp : GqlResponse)
deriving DecidableEq, Repr

/-- One invocation of the body of GitHubAPI.graphql: for page=True the
generator is created and returned with no request issued and no exception
possible (the generator body does not run); for page=False one post is issued
and the response checked through raise_if_error. -/
def graphql_call (steps : List GStep) (firstResp : GqlResponse) (vs : Vars)
    (page : Bool) : Except Exc GraphqlResult :=
  if page then
    .ok (.pagedGen steps vs)
  else
    match raise_if_error firstResp with
    | .ok _ => .ok (.single firstResp)
    | .error e => .error e

/-- GitHubAPI.graphql under its retry decorator (githubapi.py line 303): the
decorator guards only the invocation of the function body, re-invoking it from
the original arguments when the body raises a retryable exception. -/
def graphql_retried (steps : List GStep) (firstResp : GqlResponse) (vs : Vars)
    (page : Bool) : Except Exc GraphqlResult × Nat :=
  retryCall graphql_retry (fun _ => graphql_call steps firstResp vs page)

/-- Iterating the value returned by graphql: the paged generator is driven to
exhaustion or to its terminal exception, outside any retry wrapper. -/
def consume : GraphqlResult → List (List String) × Option Exc
  | .pagedGen steps vars =>
    ((_get_graphql_page steps vars).1, (_get_graphql_page steps vars).2.2)
  | .single _ => ([], none)

/-- The observable outcome of a paged graphql call followed by consumer
iteration. -/
def graphql_paged_observed (steps : List GStep) (firstResp : GqlResponse)
    (vs : Vars) : List (List String) × Option Exc :=
  match (graphql_retried steps firstResp vs true).1 with
  | .ok r => consume r
  | .error e => ([], some e)

/-- A server trace whose second page is a rate-limited GraphQL error
response. -/
def stepsC3 : List GStep :=
  [.ok ⟨["e1"], true, "c1"⟩, .err [⟨some "RATE_LIMITED", some "rate limited"⟩]]

theorem retryGo_not_retryable {cls : Exc → Bool} {run : Nat → Except Exc α} {e : Exc}
    (i rem : Nat) (h0 : run i = .error e) (hcls : cls e = false) :
    retryGo cls run i rem = (.error e, i + 1) := by
  cases rem with
  | zero => simp [retryGo, h0]
  | succ r => simp [retryGo, h0, hcls]

theorem retryGo_exhaust {cls : Exc → Bool} {run : Nat → Except Exc α} {e : Exc}
    (hall : ∀ j, run j = .error e) (hcls : cls e = true) :
    ∀ rem i, retryGo cls run i rem = (.error e, i + rem + 1) := by
  intro rem
  induction rem with
  | zero => intro i; simp [retryGo, hall i]
  | succ r ih =>
    intro i
    have := ih (i + 1)
    simp [retryGo, hall i, hcls, this]
    omega

theorem isPrefixOf_append_self (l1 l2 : List Char) : l1.isPrefixOf (l1 ++ l2) = true := by
  induction l1 with
  | nil => simp [List.isPrefixOf]
  | cons a as ih => simp [List.isPrefixOf, ih]

theorem replaceAux_skip (pat repl : List Char) :
    ∀ (xs l : List Char), replaceAux pat repl xs.length (xs ++ l) = replaceAux pat repl 0 l := by
  intro xs
  induction xs with
  | nil => intro l; rfl
  | cons x xs ih => intro l; simpa [replaceAux] using ih l

theorem replaceAux_no_occurrence {pat : List Char} (repl : List Char) :
    ∀ {l : List Char}, containsSub pat l = false → replaceAux pat repl 0 l = l := by
  intro l
  induction l with
  | nil => intro _; rfl
  | cons c rest ih =>
    intro h
    simp only [containsSub, Bool.or_eq_false_iff] at h
    simp [replaceAux, h.1, ih h.2]

theorem replaceAux_head_match {pat : List Char} (repl : List Char) (hne : pat ≠ [])
    (l : List Char) : replaceAux pat repl 0 (pat ++ l) = repl ++ replaceAux pat repl 0 l := by
  cases pat with
  | nil => exact absurd rfl hne
  | cons p ps =>
    show replaceAux (p :: ps) repl 0 ((p :: ps) ++ l) = _
    simp only [replaceAux]
    rw [if_pos]
    · have h1 : (p :: ps).length - 1 = ps.length := by simp
      rw [h1]
      show repl ++ replaceAux (p :: ps) repl ps.length (ps ++ l) = _
      rw [replaceAux_skip]
    · exact ⟨List.cons_ne_nil p ps, isPrefixOf_append_self (p :: ps) l⟩

/-- C1 (code_bug): evaluating the rate-limit classifier at the failing input.
The claim (and the repository's own test
test__retry_ratelimit_error_Should_Return_False_When_403NotRateLimit) requires
that a 403 response with a plain authorization reason and no rate-limit
indicator is never retried, but retry_ratelimit_error answers true for every
HTTPError with status 403, inspecting nothing but the status code; the
configured wait and attempt cap are 60000 ms and 60. -/
theorem C1_403_forbidden_is_retried :
    retry_ratelimit_error (.httpError 403 "Forbidden") = true ∧
    retry_ratelimit_error (.httpError 404 "Not Found") = false ∧
    (retries.map fun s => (s.wait_fixed, s.stop_max_attempt_number)) = [(60000, 60)] :=
  ⟨rfl, rfl, rfl⟩

/-- C2 (confirmed): for a GraphQL response body with an errors array, the
handler raises GraphqlRateLimitError (retryable under the graphql retry
configuration: wait 60000 ms, cap 60 attempts) when some entry has type
RATE_LIMITED, taking the first such entry's message; otherwise it raises
GraphqlError with the first entry's message, which no classifier retries, so a
guarded call surfaces it after exactly one attempt; a body without an errors
key raises nothing. -/
theorem C2_raise_if_error_classification (r : GqlResponse) :
    (r.errors = none → raise_if_error r = .ok ()) ∧
    (∀ errs e, r.errors = some errs →
      errs.find? (fun x => x.typeGet == "RATE_LIMITED") = some e →
      raise_if_error r = .error (.graphqlRateLimitError (e.message.getD "")) ∧
      check_graphqlratelimiterror (.graphqlRateLimitError (e.message.getD "")) = true ∧
      graphql_retry.wait_fixed = 60000 ∧ graphql_retry.stop_max_attempt_number = 60) ∧
    (∀ e0 rest m, r.errors = some (e0 :: rest) →
      (e0 :: rest).find? (fun x => x.typeGet == "RATE_LIMITED") = none →
      e0.message = some m →
      raise_if_error r = .error (.graphqlError m) ∧
      check_graphqlratelimiterror (.graphqlError m) = false ∧
      ∀ run : Nat → Except Exc Unit, run 0 = .error (.graphqlError m) →
        retryCall graphql_retry run = (.error (.graphqlError m), 1)) := by
  refine ⟨fun h => by simp [raise_if_error, h], ?_, ?_⟩
  · intro errs e herrs hfind
    refine ⟨by simp [raise_if_error, herrs, hfind], rfl, rfl, rfl⟩
  · intro e0 rest m herrs hfind hmsg
    refine ⟨by simp [raise_if_error, herrs, hfind, hmsg], rfl, ?_⟩
    intro run hrun
    exact retryGo_not_retryable 0 _ hrun rfl

/-- Witness for C2 at concrete responses: a rate-limited errors array, a
generic errors array, and a body without errors. -/
theorem C2_raise_if_error_classification_witness :
    raise_if_error ⟨some [⟨some "RATE_LIMITED", some "limit hit"⟩]⟩ =
      .error (.graphqlRateLimitError "limit hit") ∧
    raise_if_error ⟨some [⟨some "NOT_FOUND", some "missing"⟩]⟩ =
      .error (.graphqlError "missing") ∧
    raise_if_error ⟨none⟩ = .ok () := by
  refine ⟨?_, ?_, ?_⟩
  · exact ((C2_raise_if_error_classification ⟨some [⟨some "RATE_LIMITED", some "limit hit"⟩]⟩).2.1
      [⟨some "RATE_LIMITED", some "limit hit"⟩] ⟨some "RATE_LIMITED", some "limit hit"⟩
      rfl (by decide)).1
  · exact ((C2_raise_if_error_classification ⟨some [⟨some "NOT_FOUND", some "missing"⟩]⟩).2.2
      ⟨some "NOT_FOUND", some "missing"⟩ [] "missing" rfl (by decide) rfl).1
  · exact (C2_raise_if_error_classification ⟨none⟩).1 rfl

/-- C7 (counterexample): the claim that a ChunkedEncodingError is classified as
retryable with a 10000 ms wait and a 120-attempt cap is false: the only
configured REST retry rejects a ChunkedEncodingError, the graphql classifier
rejects it too, and the only configured wait/cap pair is (60000, 60). -/
theorem C7_chunked_not_in_policy :
    (retries.all fun s =>
      s.retry_on_exception (.chunkedEncodingError "connection broken") == false) = true ∧
    check_graphqlratelimiterror (.chunkedEncodingError "connection broken") = false ∧
    (retries.map fun s => (s.wait_fixed, s.stop_max_attempt_number)) = [(60000, 60)] :=
  ⟨rfl, rfl, rfl⟩

/-- C7 (amended): a ChunkedEncodingError is not retried by any configured
classifier: both the REST rate-limit retry and the graphql retry surface it to
the caller after exactly one attempt. -/
theorem C7_chunked_surfaces_immediately (msg : String)
    (run : Nat → Except Exc Unit)
    (hrun : run 0 = .error (.chunkedEncodingError msg)) :
    (∀ spec ∈ retries, retryCall spec run = (.error (.chunkedEncodingError msg), 1)) ∧
    retryCall graphql_retry run = (.error (.chunkedEncodingError msg), 1) := by
  constructor
  · intro spec hspec
    simp only [retries, List.mem_singleton] at hspec
    subst hspec
    exact retryGo_not_retryable 0 _ hrun rfl
  · exact retryGo_not_retryable 0 _ hrun rfl

/-- Witness for C7_chunked_surfaces_immediately at a concrete failing run. -/
theorem C7_chunked_surfaces_immediately_witness :
    retryCall graphql_retry
      (fun _ => (.error (.chunkedEncodingError "connection broken") : Except Exc Unit)) =
      (.error (.chunkedEncodingError "connection broken"), 1) :=
  (C7_chunked_surfaces_immediately "connection broken" _ rfl).2

/-- C8 (counterexample): the claim that a TypeError raised inside the graphql
entry point is not marked retryable by any classifier is false: the graphql
retry classifier accepts TypeError. -/
theorem C8_typeerror_is_retryable :
    check_graphqlratelimiterror (.typeError "unsupported operand") = true := rfl

/-- C8 (amended): full characterization of the two retry classifiers: the REST
classifier accepts exactly the HTTPErrors with status 403 (capacity-based or
not), the graphql classifier accepts exactly GraphqlRateLimitError and
TypeError, and any failure rejected by a classifier surfaces through a call it
guards after exactly one attempt, with no re-attempt. -/
theorem C8_classifier_characterization (e : Exc) :
    (retry_ratelimit_error e = true ↔ ∃ reason, e = .httpError 403 reason) ∧
    (check_graphqlratelimiterror e = true ↔
      ((∃ m, e = .graphqlRateLimitError m) ∨ ∃ m, e = .typeError m)) ∧
    (∀ spec, (spec ∈ retries ∨ spec = graphql_retry) →
      spec.retry_on_exception e = false →
      ∀ run : Nat → Except Exc Unit, run 0 = .error e →
        retryCall spec run = (.error e, 1)) := by
  refine ⟨?_, ?_, ?_⟩
  · cases e <;> simp [retry_ratelimit_error]
  · cases e <;> simp [check_graphqlratelimiterror]
  · intro spec _ hrej run hrun
    exact retryGo_not_retryable 0 _ hrun hrej

/-- Witness for C8_classifier_characterization: a GraphqlError is rejected by
the graphql classifier and surfaces after one attempt. -/
theorem C8_classifier_characterization_witness :
    retryCall graphql_retry
      (fun _ => (.error (.graphqlError "bad query") : Except Exc Unit)) =
      (.error (.graphqlError "bad query"), 1) :=
  (C8_classifier_characterization (.graphqlError "bad query")).2.2 graphql_retry
    (Or.inr rfl) rfl _ rfl

/-- C9 (counterexample): the claim that a url whose host does not match the
configured host makes normalization signal a fatal error rather than return a
value is false: get_endpoint_from_url returns the foreign url unchanged. -/
theorem C9_nonmatching_host_returned_unchanged :
    get_endpoint_from_url "api.github.com" "https://example.com/repos" =
      "https://example.com/repos" := by decide

/-- C9 (amended): normalization removes every occurrence of the host prefix:
a url made of the configured prefix followed by a path free of the prefix is
stripped to that path, and a url not containing the prefix at all (in
particular one on a different host) is returned unchanged, with no error. -/
theorem C9_endpoint_normalization (hostname path url : String)
    (hp : containsSub ("https://" ++ hostname).data path.data = false)
    (hu : containsSub ("https://" ++ hostname).data url.data = false) :
    get_endpoint_from_url hostname ("https://" ++ hostname ++ path) = path ∧
    get_endpoint_from_url hostname url = url := by
  have hne : ("https://" ++ hostname).data ≠ [] := by
    intro h
    have hlen : ("https://" ++ hostname).data.length = 0 := by rw [h]; rfl
    have h2 : ("https://" ++ hostname).data = "https://".data ++ hostname.data := rfl
    rw [h2, List.length_append] at hlen
    have h8 : ("https://".data).length = 8 := rfl
    omega
  constructor
  · show pyReplace ("https://" ++ hostname ++ path) ("https://" ++ hostname) "" = path
    unfold pyReplace
    have hdata : ("https://" ++ hostname ++ path).data
        = ("https://" ++ hostname).data ++ path.data := rfl
    rw [hdata, replaceAux_head_match _ hne, replaceAux_no_occurrence _ hp]
    rfl
  · show pyReplace url ("https://" ++ hostname) "" = url
    unfold pyReplace
    rw [replaceAux_no_occurrence _ hu]

/-- Witness for C9_endpoint_normalization at a concrete matching and a concrete
foreign url. -/
theorem C9_endpoint_normalization_witness :
    get_endpoint_from_url "api.github.com" ("https://" ++ "api.github.com" ++ "/repos") =
      "/repos" ∧
    get_endpoint_from_url "api.github.com" "https://other.example/x" =
      "https://other.example/x" :=
  C9_endpoint_normalization "api.github.com" "/repos" "https://other.example/x"
    (by decide) (by decide)

theorem getAllLoop_succ {σ : Type} (hostname : String)
    (store : σ → String → Option RestResponse) (opts : σ) (fuel : Nat)
    (endpoint : String) (items : List Item) :
    getAllLoop hostname store opts (fuel + 1) endpoint items =
      (let step : List Item × Option String :=
        match store opts endpoint with
        | none => (items, none)
        | some r => (items ++ r.body.batch, lookupLink r.links "next")
      match _get_next_endpoint hostname step.2 with
      | none => some step.1
      | some e2 =>
        if e2 = "" then some step.1
        else getAllLoop hostname store opts fuel e2 step.1) := rfl

theorem getPageLoop_succ {σ : Type} (hostname : String)
    (store : σ → String → Option RestResponse) (opts : σ) (fuel : Nat)
    (endpoint : String) :
    getPageLoop hostname store opts (fuel + 1) endpoint =
      (match store opts endpoint with
       | none => ([], some (.attributeError "NoneType object has no attribute json"))
       | some r =>
         match _get_next_endpoint hostname (lookupLink r.links "next") with
         | none => ([r.body], none)
         | some e2 =>
           if e2 = "" then ([r.body], none)
           else
             let rest := getPageLoop hostname store opts fuel e2
             (r.body :: rest.1, rest.2)) := rfl

theorem getAllLoop_chain {σ : Type} {hostname : String}
    {store : σ → String → Option RestResponse} {opts : σ} :
    ∀ (rs : List RestResponse) (e : String), ChainsTo hostname store opts e rs →
      ∀ acc, getAllLoop hostname store opts rs.length e acc
        = some (acc ++ (rs.map (fun r => r.body.batch)).flatten) := by
  intro rs
  induction rs with
  | nil => intro e h; exact absurd h (by simp [ChainsTo])
  | cons r rest ih =>
    intro e h acc
    cases rest with
    | nil =>
      obtain ⟨hstore, hnext⟩ := h
      simp only [nextOf] at hnext
      rcases hnext with hn | hn <;> simp [getAllLoop, hstore, hn]
    | cons r2 rest2 =>
      obtain ⟨hstore, e2, hnext, hne2, hchain⟩ := h
      simp only [nextOf] at hnext
      have ihh := ih e2 hchain (acc ++ r.body.batch)
      rw [show ((r :: r2 :: rest2 : List RestResponse)).length
          = (r2 :: rest2).length + 1 from rfl, getAllLoop_succ]
      simp only [hstore, hnext]
      rw [if_neg hne2, ihh]
      simp [List.append_assoc]

theorem getPageLoop_chain {σ : Type} {hostname : String}
    {store : σ → String → Option RestResponse} {opts : σ} :
    ∀ (rs : List RestResponse) (e : String), ChainsTo hostname store opts e rs →
      getPageLoop hostname store opts rs.length e = (rs.map (fun r => r.body), none) := by
  intro rs
  induction rs with
  | nil => intro e h; exact absurd h (by simp [ChainsTo])
  | cons r rest ih =>
    intro e h
    cases rest with
    | nil =>
      obtain ⟨hstore, hnext⟩ := h
      simp only [nextOf] at hnext
      rcases hnext with hn | hn <;> simp [getPageLoop, hstore, hn]
    | cons r2 rest2 =>
      obtain ⟨hstore, e2, hnext, hne2, hchain⟩ := h
      simp only [nextOf] at hnext
      have ihh := ih e2 hchain
      rw [show ((r :: r2 :: rest2 : List RestResponse)).length
          = (r2 :: rest2).length + 1 from rfl, getPageLoop_succ]
      simp only [hstore, hnext]
      rw [if_neg hne2, ihh]
      simp

/-- C4 (confirmed): over any chain of N pages linked by next relations,
_get_all with fuel N returns the concatenation of all decoded batches in
server order (list payloads flattened, a single object wrapped as one item),
always querying through the same original options; _get_page yields exactly
the N bodies in the same order and nothing after the Nth, with no pending
error; and an absent response ends _get_all gracefully with whatever was
accumulated so far. -/
theorem C4_rest_pagination {σ : Type} (hostname : String)
    (store : σ → String → Option RestResponse) (opts : σ) (e : String)
    (rs : List RestResponse) (h : ChainsTo hostname store opts e rs) :
    _get_all hostname store opts rs.length e
      = some ((rs.map (fun r => r.body.batch)).flatten) ∧
    _get_page hostname store opts rs.length e = (rs.map (fun r => r.body), none) ∧
    (∀ (ep : String) (acc : List Item) (fuel : Nat), store opts ep = none →
      getAllLoop hostname store opts (fuel + 1) ep acc = some acc) := by
  refine ⟨?_, getPageLoop_chain rs e h, ?_⟩
  · simpa [_get_all] using getAllLoop_chain rs e h []
  · intro ep acc fuel hnone
    simp [getAllLoop, hnone, _get_next_endpoint]

/-- Witness for C4_rest_pagination: a concrete two-page chain, flattening the
first page's list payload and wrapping the second page's single object. -/
theorem C4_rest_pagination_witness :
    _get_all "api.github.com" storeC4 () 2 "/w" =
      some [[("id", "1")], [("id", "2")], [("id", "3")]] ∧
    _get_page "api.github.com" storeC4 () 2 "/w" =
      ([.list [[("id", "1")], [("id", "2")]], .obj [("id", "3")]], none) := by
  have h := C4_rest_pagination "api.github.com" storeC4 () "/w"
    [⟨.list [[("id", "1")], [("id", "2")]], [("next", "https://api.github.com/w?page=2")]⟩,
     ⟨.obj [("id", "3")], []⟩]
    ⟨by decide, "/w?page=2", by decide, by decide, by decide, Or.inl (by decide)⟩
  exact ⟨by simpa using h.1, by simpa using h.2.1⟩

/-- C5 (counterexample): the claim that total returns the item count of the
single response whenever no last relation is present is false: on a response
carrying links but no last relation, the code indexes the absent last relation
and raises a KeyError after the one probe request. -/
theorem C5_no_last_relation_is_keyerror :
    total "api.github.com" storeC5cx "/x" =
      (.error (.keyError "last"), ["/x?per_page=1"]) := rfl

/-- C5 (amended): for an endpoint free of per_page, total first requests the
endpoint with page size forced to 1; when the probe response carries a last
relation it issues exactly one more request, for the bare last endpoint, and
returns pageSize * (lastPageNumber - 1) + itemsOnLastPage with pageSize parsed
from the last link (default 30 when its per_page parameter is absent); when
the probe response carries no relation links at all it returns the item count
of the single response using exactly one request. (With links present but no
last relation the code raises a KeyError instead.) -/
theorem C5_total_estimator (hostname endpoint : String)
    (store : String → Option RestResponse)
    (hnp : containsSub "per_page".data endpoint.data = false) :
    (∀ r1 lastUrl r2 lastPage,
      store (totalFirstEndpoint endpoint) = some r1 →
      lookupLink r1.links "last" = some lastUrl →
      store (get_endpoint_from_url hostname lastUrl) = some r2 →
      get_page_from_url lastUrl = some lastPage →
      total hostname store endpoint =
        (.ok ((get_per_page_from_url lastUrl : Int) * ((lastPage : Int) - 1) +
           r2.body.pyLen),
         [totalFirstEndpoint endpoint, get_endpoint_from_url hostname lastUrl])) ∧
    (∀ r1, store (totalFirstEndpoint endpoint) = some r1 → r1.links = [] →
      total hostname store endpoint =
        (.ok (r1.body.pyLen : Int), [totalFirstEndpoint endpoint])) ∧
    (∀ url : String, extractLastParam "per_page=".data url.data = none →
      get_per_page_from_url url = DEFAULT_PAGE_SIZE ∧ DEFAULT_PAGE_SIZE = 30) := by
  refine ⟨?_, ?_, ?_⟩
  · intro r1 lastUrl r2 lastPage h1 hlast h2 hpage
    have hlinks : r1.links.isEmpty = false := by
      cases hl : r1.links with
      | nil => rw [hl] at hlast; simp [lookupLink] at hlast
      | cons a l => simp
    simp [total, hnp, h1, hlinks, hlast, h2, hpage]
  · intro r1 h1 hempty
    simp [total, hnp, h1, hempty]
  · intro url hnone
    exact ⟨by simp [get_per_page_from_url, hnone], rfl⟩

/-- Witness for C5_total_estimator on the specification's worked example:
30 * 207 + 3 = 6213 with exactly two requests. -/
theorem C5_total_estimator_witness :
    total "api.github.com" storeC5 "/repos" =
      (.ok 6213, ["/repos?per_page=1", "/repos?per_page=30&page=208"]) := by
  have h := (C5_total_estimator "api.github.com" "/repos" storeC5 (by decide)).1
    ⟨.list [[("id", "1")]],
     [("next", "https://api.github.com/repos?per_page=1&page=2"),
      ("last", "https://api.github.com/repos?per_page=30&page=208")]⟩
    "https://api.github.com/repos?per_page=30&page=208"
    ⟨.list [[("id", "a")], [("id", "b")], [("id", "c")]], []⟩
    208 (by decide) (by decide) (by decide) (by decide)
  rw [h]
  rfl

/-- C6 (counterexample): the claim that no ValueError is raised for an endpoint
without a per_page query parameter is false: the code tests per_page as a
substring, so an endpoint whose only parameter is hyper_page is rejected
before any request. -/
theorem C6_substring_not_param :
    hasPerPageQueryParam "/x?hyper_page=5" = false ∧
    total "api.github.com" (fun _ => none) "/x?hyper_page=5" =
      (.error (.valueError "endpoint with per_page argument is not supported"), []) :=
  ⟨by decide, rfl⟩

/-- C6 (amended): total raises ValueError exactly when the endpoint contains
per_page as a substring (not necessarily as a query parameter), and then it
does so before issuing any request; for an endpoint without that substring no
ValueError is ever produced. -/
theorem C6_per_page_guard (hostname endpoint : String)
    (store : String → Option RestResponse) :
    (containsSub "per_page".data endpoint.data = true →
      total hostname store endpoint =
        (.error (.valueError "endpoint with per_page argument is not supported"), [])) ∧
    (containsSub "per_page".data endpoint.data = false →
      ∀ m, (total hostname store endpoint).1 ≠ .error (.valueError m)) := by
  constructor
  · intro h
    simp [total, h]
  · intro h m
    unfold total
    rw [if_neg (by simp [h])]
    split
    · simp
    next r1 heq =>
      split
      · simp
      · split
        · simp
        next lastUrl heq2 =>
          split
          · simp
          next r2 heq3 =>
            split <;> simp

/-- Witness for C6_per_page_guard: the guarded endpoint of the specification
example and an unguarded endpoint. -/
theorem C6_per_page_guard_witness :
    total "api.github.com" (fun _ => some ⟨.list [], []⟩) "/x?per_page=5" =
      (.error (.valueError "endpoint with per_page argument is not supported"), []) ∧
    (total "api.github.com" (fun _ => some (⟨.list [[("id", "1")]], []⟩ : RestResponse))
        "/y").1 ≠
      .error (.valueError "endpoint with per_page argument is not supported") := by
  constructor
  · exact (C6_per_page_guard "api.github.com" "/x?per_page=5" _).1 (by decide)
  · exact (C6_per_page_guard "api.github.com" "/y" _).2 (by decide) _

/-- C3 (counterexample): the claim that a rate-limit error raised while a
consumer iterates pages triggers a full re-invocation of the graphql call is
false: on a trace whose second page is a RATE_LIMITED error response, the
retry-wrapped entry point completes after exactly one attempt (it only
constructs the generator) and the error surfaces to the consumer during
iteration, with no re-invocation. -/
theorem C3_midtraversal_ratelimit_not_reinvoked :
    graphql_retried stepsC3 ⟨none⟩ [("owner", .s "o")] true =
      (.ok (.pagedGen stepsC3 [("owner", .s "o")]), 1) ∧
    graphql_paged_observed stepsC3 ⟨none⟩ [("owner", .s "o")] =
      ([["e1"]], some (.graphqlRateLimitError "rate limited")) :=
  ⟨rfl, rfl⟩

/-- C3 (amended): the retry decorator wraps only the graphql entry point; for
page=True the entry point merely constructs the paged generator and never
raises, so the guarded call always succeeds after exactly one attempt, and
whatever the generator later raises — including a GraphQL rate-limit error in
any step of the traversal — passes to the consumer exactly as the unguarded
generator produces it, with no re-invocation and no cursor preservation. -/
theorem C3_paged_retry_scope (steps : List GStep) (firstResp : GqlResponse)
    (vs : Vars) :
    graphql_retried steps firstResp vs true =
      (.ok (.pagedGen steps vs), 1) ∧
    graphql_paged_observed steps firstResp vs =
      ((_get_graphql_page steps vs).1, (_get_graphql_page steps vs).2.2) :=
  ⟨rfl, rfl⟩

theorem getVar_setVar_same (k : String) (v : VarVal) (vars : Vars) :
    getVar k (setVar k v vars) = some v := by
  induction vars with
  | nil => simp [setVar, getVar]
  | cons p rest ih =>
    obtain ⟨k0, v0⟩ := p
    simp only [setVar]
    by_cases hk : k0 = k
    · subst hk
      rw [if_pos (by simp)]
      unfold getVar
      rw [List.find?_cons_of_pos _ (by simp)]
      rfl
    · rw [if_neg (by simpa using hk)]
      unfold getVar
      rw [List.find?_cons_of_neg _ (by simpa using hk)]
      exact ih

theorem getVar_setVar_other {k k0 : String} (hk : k ≠ k0) (v : VarVal) (vars : Vars) :
    getVar k0 (setVar k v vars) = getVar k0 vars := by
  induction vars with
  | nil =>
    unfold setVar getVar
    rw [List.find?_cons_of_neg _ (by simpa using hk)]
  | cons p rest ih =>
    obtain ⟨k1, v1⟩ := p
    simp only [setVar]
    by_cases hk1 : k1 = k
    · subst hk1
      rw [if_pos (by simp)]
      unfold getVar
      rw [List.find?_cons_of_neg _ (by simpa using hk),
        List.find?_cons_of_neg _ (by simpa using hk)]
    · rw [if_neg (by simpa using hk1)]
      by_cases hk0 : k1 = k0
      · subst hk0
        unfold getVar
        rw [List.find?_cons_of_pos _ (by simp), List.find?_cons_of_pos _ (by simp)]
      · unfold getVar
        rw [List.find?_cons_of_neg _ (by simpa using hk0),
          List.find?_cons_of_neg _ (by simpa using hk0)]
        exact ih

theorem gPageLoop_vars :
    ∀ (steps : List GStep) (vars : Vars) (c0 : String),
      getVar "cursor" vars = some (.s c0) →
      getVar "cursor" (gPageLoop steps vars).2.1 = some (.s (lastCursor steps c0)) ∧
      getVar "page_size" (gPageLoop steps vars).2.1 = getVar "page_size" vars := by
  intro steps
  induction steps with
  | nil => intro vars c0 h; exact ⟨by simpa [gPageLoop, lastCursor] using h, rfl⟩
  | cons s rest ih =>
    intro vars c0 h
    cases s with
    | err errs => exact ⟨by simpa [gPageLoop, lastCursor] using h, rfl⟩
    | ok p =>
      by_cases hn : p.hasNextPage
      · have ihh := ih (setVar "cursor" (.s p.endCursor) vars) p.endCursor
          (getVar_setVar_same _ _ _)
        constructor
        · simpa [gPageLoop, lastCursor, hn] using ihh.1
        · rw [show (gPageLoop (.ok p :: rest) vars).2.1
              = (gPageLoop rest (setVar "cursor" (.s p.endCursor) vars)).2.1 by
              simp [gPageLoop, hn]]
          rw [ihh.2, getVar_setVar_other (by decide)]
      · exact ⟨by simpa [gPageLoop, lastCursor, hn] using h, by simp [gPageLoop, hn]⟩

/-- C10 (counterexample): the claim that the cursor entry is overwritten with
the server-reported endCursor after each yielded page is false on a single-page
traversal: the page reports hasNextPage false with endCursor abc, and after the
traversal the caller's cursor entry holds the empty string written during
initialization, not abc. -/
theorem C10_last_page_cursor_not_overwritten :
    getVar "cursor" ((_get_graphql_page [.ok ⟨["e1"], false, "abc"⟩]
        [("cursor", .s "orig"), ("page_size", .n 5)]).2.1) = some (.s "") ∧
    (VarVal.s "") ≠ (VarVal.s "abc") :=
  ⟨rfl, by decide⟩

/-- C10 (amended): the paged generator mutates the caller-supplied variables
dictionary in place: it overwrites page_size with 100 and cursor with the
empty string before the first request, and overwrites cursor with the
server-reported endCursor after each yielded page that reports hasNextPage
(the final page, with hasNextPage false, does not overwrite it); consequently
after the traversal the dictionary holds page_size 100 and, as cursor, the
endCursor of the last continuing page (the empty string for a single-page
traversal) — never its original page_size/cursor entries. -/
theorem C10_graphql_page_mutates_variables (vs : Vars) (steps : List GStep) :
    getVar "page_size" ((_get_graphql_page steps vs).2.1) =
      some (.n DEFAULT_GRAPHQL_PAGE_SIZE) ∧
    getVar "cursor" ((_get_graphql_page steps vs).2.1) =
      some (.s (lastCursor steps "")) := by
  have h := gPageLoop_vars steps
    (setVar "cursor" (.s "")
      (setVar "page_size" (.n DEFAULT_GRAPHQL_PAGE_SIZE) vs)) ""
    (getVar_setVar_same _ _ _)
  refine ⟨?_, h.1⟩
  rw [show (_get_graphql_page steps vs).2.1
      = (gPageLoop steps (setVar "cursor" (.s "")
          (setVar "page_size" (.n DEFAULT_GRAPHQL_PAGE_SIZE) vs))).2.1 from rfl,
    h.2, getVar_setVar_other (by decide), getVar_setVar_same]

end Github3api
